import Mathlib

/-!
Verification development for the recording and reporting subsystem of the
instrument-test repository (`src/utils/recorder.py`).

The Python code is shallowly embedded: pandas DataFrames become lists of
labelled columns of cell values, the filesystem becomes an explicit list of
file-write events plus success/failure flags supplied by the environment,
and Python exceptions become `Except` values.  `record_complete_dataset`
catches every exception of its body and returns `None`; we model that by a
total function returning `Option`.
-/

set_option maxHeartbeats 1000000

namespace RecorderModel

/-- Primitive scalar payloads that can occur inside a sequence cell
(a Python list or tuple value stored in one object cell). -/
inductive Prim where
  | pnum (q : ℚ)
  | pstr (s : String)
  deriving DecidableEq, Repr

/-- A cell value of the tabular container: a number, a text value, a
sequence cell, or the missing marker (NaN). -/
inductive Val where
  | num (q : ℚ)
  | str (s : String)
  | seq (vs : List Prim)
  | missing
  deriving DecidableEq, Repr

/-- Column labels: pandas columns are either string labels or the
positional integer labels of a default RangeIndex. -/
inductive ColName where
  | str (s : String)
  | nat (n : Nat)
  deriving DecidableEq, Repr

/-- A DataFrame: an ordered list of labelled columns. -/
abbrev DataFrame := List (ColName × List Val)

/-- The labels of the columns of a DataFrame, in order. -/
def colNames (df : DataFrame) : List ColName := df.map Prod.fst

/-- Row count of a DataFrame (length of its first column, as all columns
of a well-formed frame are row-aligned). -/
def nrows (df : DataFrame) : Nat :=
  match df with
  | [] => 0
  | c :: _ => c.2.length

/-- Model of `df.empty`: true when the frame has no columns or no rows. -/
def dfEmpty (df : DataFrame) : Bool := df.isEmpty || nrows df == 0

/-- Numeric value of a digit string. -/
def digitsToNat (ds : List Char) : Nat :=
  ds.foldl (fun a c => a * 10 + (c.toNat - 48)) 0

/-- Whitespace as recognised by Python `str.strip` and `str.split`
(for the characters that can occur in our lines). -/
def isWS (c : Char) : Bool := c = ' ' ∨ c = '\t' ∨ c = '\n' ∨ c = '\r'

/-- Python `str.strip()` on the character list of a string. -/
def trimChars (cs : List Char) : List Char :=
  ((cs.dropWhile isWS).reverse.dropWhile isWS).reverse

/-- Grouping of a character list into maximal runs separated by
whitespace. -/
def splitOnWS (cs : List Char) : List (List Char) :=
  let groups := cs.foldr
    (fun c acc =>
      match acc with
      | [] => if isWS c then [] else [[c]]
      | g :: gs => if isWS c then [] :: g :: gs else (c :: g) :: gs)
    []
  groups.filter fun g => g ≠ []

/-- Model of Python `float(value)` on decimal literals, used by
`_is_numeric` and by `pd.to_numeric`: optional surrounding whitespace,
optional sign, then digits with an optional fractional part (`1`, `-2.5`,
`.5`, `3.`).  Exponent, infinity and NaN spellings are not modelled. -/
def parseRat (s : String) : Option ℚ :=
  let cs := trimChars s.data
  let signed : Bool × List Char :=
    match cs with
    | '-' :: r => (true, r)
    | '+' :: r => (false, r)
    | r => (false, r)
  let rest := signed.2
  let intPart := rest.takeWhile Char.isDigit
  let tail := rest.dropWhile Char.isDigit
  let mag : Option ℚ :=
    match tail with
    | [] => if intPart.isEmpty then none else some ((digitsToNat intPart : ℚ))
    | '.' :: frac =>
        if frac.all Char.isDigit ∧ ¬ (intPart.isEmpty ∧ frac.isEmpty) then
          some ((digitsToNat intPart : ℚ) + (digitsToNat frac : ℚ) / ((10 : ℚ) ^ frac.length))
        else none
    | _ => none
  match mag with
  | none => none
  | some m => some (if signed.1 then -m else m)

/-- Model of `_is_numeric`: whether `float(value)` succeeds. -/
def is_numeric (s : String) : Bool := (parseRat s).isSome

/-- Model of Python `int(s)` for a string: optional surrounding
whitespace, optional sign, digits only. -/
def pyIntOfString (s : String) : Option Int :=
  let cs := trimChars s.data
  let signed : Bool × List Char :=
    match cs with
    | '-' :: r => (true, r)
    | '+' :: r => (false, r)
    | r => (false, r)
  let ds := signed.2
  if ds ≠ [] ∧ ds.all Char.isDigit then
    some (if signed.1 then -(digitsToNat ds : Int) else (digitsToNat ds : Int))
  else none

/-- Configuration for data handling and processing (`DataConfig`). -/
structure DataConfig where
  auto_detect_types : Bool
  handle_missing : String
  numeric_precision : Nat
  encoding : String
  deriving DecidableEq, Repr

/-- The default `DataConfig()`. -/
def DataConfig.default : DataConfig :=
  DataConfig.mk true "fill" 6 "utf-8"

/-- Sequence-cell test, mirroring `isinstance(v, (list, tuple))`. -/
def isSeqV : Val → Bool
  | .seq _ => true
  | _ => false

/-- Numeric-cell test. -/
def isNumV : Val → Bool
  | .num _ => true
  | _ => false

/-- Length of a sequence cell (0 for non-sequence values). -/
def seqLen : Val → Nat
  | .seq vs => vs.length
  | _ => 0

/-- A primitive promoted to a cell value. -/
def primToVal : Prim → Val
  | .pnum q => .num q
  | .pstr s => .str s

/-- Elements of a sequence cell as cell values. -/
def seqVals : Val → List Val
  | .seq vs => vs.map primToVal
  | _ => []

/-- Whitespace tokenisation as performed by Python `line.split()`. -/
def splitWs (s : String) : List String :=
  (splitOnWS s.data).map String.mk

/-- Model of `pd.to_numeric(-, errors='coerce')` on one scalar cell:
numbers stay, parseable text becomes a number, other text becomes the
missing marker.  (Sequence cells never reach this function: the callers
guard them, see `autoDetectCol`.) -/
def coerceVal : Val → Val
  | .num q => .num q
  | .str s =>
      match parseRat s with
      | some q => .num q
      | none => .missing
  | .seq _ => .missing
  | .missing => .missing

/-- Positional integer column labels `0, 1, …, n-1` of a default
pandas RangeIndex. -/
def natLabels (n : Nat) : List ColName := (List.range n).map ColName.nat

/-- Largest row length of a list of rows. -/
def maxLen (rows : List (List α)) : Nat := rows.foldl (fun a r => max a r.length) 0

/-- Shared shape of `pd.DataFrame(rows)` for a matrix or a sequence of
sequences: one column per position up to the longest row, short rows
padded with the missing marker; a supplied header list renames the
columns only when it is non-empty and its length equals the column
count, otherwise the columns keep their positional integer labels. -/
def rowsToDf (rows : List (List Val)) (headers : Option (List String)) : DataFrame :=
  let n := maxLen rows
  let colVals := (List.range n).map fun j => rows.map fun r => (r.get? j).getD Val.missing
  let names :=
    match headers with
    | some hs => if hs ≠ [] ∧ hs.length = n then hs.map ColName.str else natLabels n
    | none => natLabels n
  names.zip colVals

/-- Content lines of a text file: blank lines and lines whose stripped
form starts with a comment marker are removed (`_parse_txt_file`). -/
def txtLines (lines : List String) : List String :=
  lines.filter fun l =>
    ¬ (trimChars l.data = []) ∧
    ¬ (match trimChars l.data with
        | '#' :: _ => true
        | _ => false) = true

/-- Tokens of the first content line (`lines[0].strip().split()`). -/
def txtFirstTokens (lines : List String) : List String :=
  match txtLines lines with
  | [] => []
  | l :: _ => splitWs l

/-- Header auto-detection of `_parse_txt_file`: the first content line is
a header when any of its tokens is not numeric-parseable. -/
def txtHeaderDetected (lines : List String) : Bool :=
  (txtFirstTokens lines).any fun t => ¬ is_numeric t

/-- The tokenised data rows of the text file (the first content line is
dropped when it was detected as a header). -/
def txtDataRows (lines : List String) : List (List String) :=
  match txtLines lines with
  | [] => []
  | l :: rest => (if txtHeaderDetected lines then rest else l :: rest).map splitWs

/-- Column count of the parsed text file (`max_cols`). -/
def txtMaxCols (lines : List String) : Nat := maxLen (txtDataRows lines)

/-- The generic column names `col_0, col_1, …`. -/
def genericNames (n : Nat) : List ColName :=
  (List.range n).map fun i => ColName.str ("col_" ++ toString i)

/-- Model of `_parse_txt_file`: comment/blank lines removed, header
auto-detected, ragged rows right-padded with the missing marker, columns
named from the header when its length matches and `col_i` otherwise, and
every column coerced with `pd.to_numeric(-, errors='coerce')`. -/
def parse_txt_file (lines : List String) : DataFrame :=
  match txtLines lines with
  | [] => []
  | _ :: _ =>
    let rows := txtDataRows lines
    if rows = [] then []
    else
      let n := maxLen rows
      let names :=
        if txtHeaderDetected lines = true ∧ (txtFirstTokens lines).length = n then
          (txtFirstTokens lines).map ColName.str
        else genericNames n
      let cols := (List.range n).map fun j =>
        rows.map fun r => coerceVal ((r.get? j).map Val.str |>.getD Val.missing)
      names.zip cols

/-- The closed set of input shapes accepted by `_convert_to_dataframe`,
as tagged variants (the Python code dispatches on runtime types; list
inputs dispatch on the type of their first element, which the non-empty
list variants carry explicitly).  Comma-delimited files are parsed by the
external `pandas.read_csv` routine and are not modelled. -/
inductive InputData where
  | txtFile (lines : List String)
  | otherFile (lines : List String)
  | frame (df : DataFrame)
  | matrix (rows : List (List ℚ))
  | dict (kvs : List (String × Val))
  | listOfDicts (fst : List (String × Val)) (rest : List (List (String × Val)))
  | listOfLists (fst : List Val) (rest : List (List Val))
  | listOfScalars (fst : Val) (rest : List Val)
  | emptyList
  | scalar (v : Val)

/-- Columns of `pd.DataFrame(list-of-dicts)`: union of the keys in order
of first appearance. -/
def unionKeys (rows : List (List (String × Val))) : List String :=
  rows.foldl (fun acc r => acc ++ (r.map Prod.fst).filter (fun k => ¬ acc.contains k)) []

/-- Model of `_convert_to_dataframe(data, headers)`.  Errors model the
exceptions pandas raises (a dict of sequences of unequal lengths), which
the caller's `except` clause turns into a failure result. -/
def convert_to_dataframe (data : InputData) (headers : Option (List String)) :
    Except String DataFrame :=
  match data with
  | .txtFile lines => .ok (parse_txt_file lines)
  | .otherFile lines => .ok [(ColName.str "value", lines.map Val.str)]
  | .frame df => .ok df
  | .matrix rows => .ok (rowsToDf (rows.map fun r => r.map Val.num) headers)
  | .dict kvs =>
      if (kvs.all fun kv => isSeqV kv.2) = false then
        .ok (kvs.map fun kv => (ColName.str kv.1, [kv.2]))
      else
        match kvs.map fun kv => seqLen kv.2 with
        | [] => .ok []
        | l :: ls =>
            if ls.all fun x => x = l then
              .ok (kvs.map fun kv => (ColName.str kv.1, seqVals kv.2))
            else .error "arrays must all be same length"
  | .listOfDicts fst rest =>
      let rows := fst :: rest
      .ok ((unionKeys rows).map fun k =>
        (ColName.str k, rows.map fun r => (r.lookup k).getD Val.missing))
  | .listOfLists fst rest => .ok (rowsToDf (fst :: rest) headers)
  | .listOfScalars fst rest => .ok [(ColName.str "value", fst :: rest)]
  | .emptyList => .ok []
  | .scalar v => .ok [(ColName.str "value", [v])]

/-- Numeric-dtype test for a column: every cell is a number or missing
(an all-missing column is a float column in pandas and counts as
numeric; any text or sequence cell makes the dtype `object`). -/
def isNumericCol (c : List Val) : Bool :=
  c.all fun v =>
    match v with
    | .num _ => true
    | .missing => true
    | _ => false

/-- The numeric entries of a column, in order (NaN is skipped, matching
pandas reductions). -/
def numsOf (c : List Val) : List ℚ :=
  c.filterMap fun v =>
    match v with
    | .num q => some q
    | _ => none

/-- Model of `Series.mean()`: mean of the non-missing entries, or none
when there are none (pandas returns NaN there, and `fillna(NaN)` leaves
the column unchanged). -/
def colMean (c : List Val) : Option ℚ :=
  let ns := numsOf c
  if ns.length = 0 then none else some (ns.sum / (ns.length : ℚ))

/-- The non-missing entries of a column. -/
def nonMissing (c : List Val) : List Val := c.filter fun v => v ≠ Val.missing

/-- Ascending order used by pandas when sorting the modes of a column;
numbers are ordered before text (pandas sorts homogeneous mode sets
ascending; mixed sets are normalised by this fixed order). -/
def valLe : Val → Val → Bool
  | .num a, .num b => a ≤ b
  | .num _, _ => true
  | .str a, .str b => a < b ∨ a = b
  | .str _, .num _ => false
  | _, _ => true

/-- Model of `Series.mode().iloc[0]` wrapped in an option: none when the
column has no non-missing value (empty mode set); an error models the
`TypeError` raised on unhashable sequence cells.  Among the values of
maximal multiplicity the least in ascending order is returned. -/
def modeOf (c : List Val) : Except String (Option Val) :=
  if c.any isSeqV then .error "unhashable value in column"
  else
    let elems := nonMissing c
    match elems.dedup with
    | [] => .ok none
    | d :: ds =>
        let maxCount := (d :: ds).foldl (fun a v => max a (elems.count v)) 0
        let cands := (d :: ds).filter fun v => elems.count v = maxCount
        .ok (cands.foldl
          (fun a v =>
            match a with
            | none => some v
            | some w => if valLe v w then some v else some w)
          none)

/-- One column of the `fill` missing-value policy (`_process_dataframe`,
fill branch): a numeric column is filled with its mean, any other column
with its mode, or the literal `"Unknown"` when no mode exists. -/
def fillCol (c : List Val) : Except String (List Val) :=
  if isNumericCol c then
    match colMean c with
    | some m => .ok (c.map fun v => if v = Val.missing then Val.num m else v)
    | none => .ok c
  else
    match modeOf c with
    | .error e => .error e
    | .ok mv =>
        let fv := match mv with
          | some m => m
          | none => Val.str "Unknown"
        .ok (c.map fun v => if v = Val.missing then fv else v)

/-- Index and value of the last numeric entry strictly before index `i`. -/
def lastNumBefore (c : List Val) (i : Nat) : Option (Nat × ℚ) :=
  (List.range i).reverse.findSome? fun j =>
    match c.get? j with
    | some (.num q) => some (j, q)
    | _ => none

/-- Index and value of the first numeric entry strictly after index `i`. -/
def firstNumAfter (c : List Val) (i : Nat) : Option (Nat × ℚ) :=
  ((List.range c.length).filter fun j => i < j).findSome? fun j =>
    match c.get? j with
    | some (.num q) => some (j, q)
    | _ => none

/-- Model of `Series.interpolate()` (linear, over row order) on a numeric
column: interior gaps are linearly interpolated, trailing gaps take the
last valid value, leading gaps stay missing. -/
def interpolateCol (c : List Val) : List Val :=
  (List.range c.length).map fun i =>
    match c.get? i with
    | some Val.missing =>
        match lastNumBefore c i, firstNumAfter c i with
        | some jv, some kv =>
            Val.num (jv.2 + (kv.2 - jv.2) * (((i : ℚ) - (jv.1 : ℚ)) / ((kv.1 : ℚ) - (jv.1 : ℚ))))
        | some jv, none => Val.num jv.2
        | none, _ => Val.missing
    | some v => v
    | none => Val.missing

/-- Model of `df.dropna()`: remove every row containing a missing value. -/
def dropMissingRows (df : DataFrame) : DataFrame :=
  let keep := (List.range (nrows df)).filter fun i =>
    df.all fun c => ((c.2.get? i).getD Val.missing) ≠ Val.missing
  df.map fun c => (c.1, keep.map fun i => (c.2.get? i).getD Val.missing)

/-- The type auto-detection step of `_process_dataframe` on one column:
a column whose dtype is not `object` is untouched; an object column is
coerced with `pd.to_numeric(-, errors='coerce')` and replaced by the
coerced series if and only if not every coerced entry is missing.
Sequence cells make the numeric coercion raise. -/
def autoDetectCol (c : List Val) : Except String (List Val) :=
  if isNumericCol c then .ok c
  else if c.any isSeqV then .error "invalid object type in numeric coercion"
  else
    let cc := c.map coerceVal
    if cc.any isNumV then .ok cc else .ok c

/-- Model of `_process_dataframe`: the configured missing-value policy
(`drop`, `fill`, `interpolate`, anything else is a no-op) followed by
type auto-detection when enabled. -/
def process_dataframe (cfg : DataConfig) (df : DataFrame) : Except String DataFrame := do
  let df1 ←
    if cfg.handle_missing = "drop" then pure (dropMissingRows df)
    else if cfg.handle_missing = "fill" then
      df.mapM fun c => do
        let filled ← fillCol c.2
        pure (c.1, filled)
    else if cfg.handle_missing = "interpolate" then
      pure (df.map fun c => if isNumericCol c.2 then (c.1, interpolateCol c.2) else c)
    else pure df
  if cfg.auto_detect_types then
    df1.mapM fun c => do
      let dc ← autoDetectCol c.2
      pure (c.1, dc)
  else pure df1

/-- A descriptive-statistics value: an exact rational, the square root
of a rational (the standard deviation, kept symbolic so the model stays
exact and executable), or IEEE NaN as produced by pandas on degenerate
inputs. -/
inductive StatVal where
  | q (x : ℚ)
  | sqrtOf (x : ℚ)
  | nan
  deriving DecidableEq, Repr

/-- Insertion of a rational into a sorted list. -/
def insertSorted (x : ℚ) : List ℚ → List ℚ
  | [] => [x]
  | y :: ys => if x ≤ y then x :: y :: ys else y :: insertSorted x ys

/-- Ascending sort of a list of rationals. -/
def sortQ (l : List ℚ) : List ℚ := l.foldr insertSorted []

/-- Linear-interpolated percentile of an ascending list (`p` between 0
and 1), the semantics of `DataFrame.describe`; NaN on an empty list. -/
def percentile (xs : List ℚ) (p : ℚ) : StatVal :=
  match xs with
  | [] => .nan
  | x0 :: _ =>
      let n := xs.length
      let pos := p * ((n : ℚ) - 1)
      let f := pos.floor.toNat
      let xf := (xs.get? f).getD x0
      let xf1 := (xs.get? (f + 1)).getD xf
      .q (xf + (pos - (f : ℚ)) * (xf1 - xf))

/-- The eight describe-derived entries recorded per numeric column by
`_generate_basic_statistics`, with the key strings exactly as in the
source (`count`, `mean`, `std`, `min`, `25%`, `50%`, `75%`, `max`).
`count`/`mean`/`std` ignore missing entries; `std` is the sample
standard deviation (NaN when fewer than two values). -/
def statsForCol (c : List Val) : List (String × StatVal) :=
  let ns := numsOf c
  let n := ns.length
  let xs := sortQ ns
  let meanV : StatVal := if n = 0 then .nan else .q (ns.sum / (n : ℚ))
  let stdV : StatVal :=
    if n ≤ 1 then .nan
    else .sqrtOf ((ns.map fun x => (x - ns.sum / (n : ℚ)) ^ 2).sum / ((n : ℚ) - 1))
  let minV : StatVal :=
    match xs with
    | [] => .nan
    | x :: _ => .q x
  let maxV : StatVal :=
    match xs.getLast? with
    | none => .nan
    | some x => .q x
  [("count", .q (n : ℚ)), ("mean", meanV), ("std", stdV), ("min", minV),
   ("25%", percentile xs (1 / 4)), ("50%", percentile xs (1 / 2)),
   ("75%", percentile xs (3 / 4)), ("max", maxV)]

/-- Model of `_generate_basic_statistics`: one record per numeric-dtype
column, non-numeric columns omitted, empty frames giving an empty
mapping. -/
def generate_basic_statistics (df : DataFrame) : List (ColName × List (String × StatVal)) :=
  (df.filter fun c => isNumericCol c.2).map fun c => (c.1, statsForCol c.2)

/-- The mutable lifecycle state of a `UniversalRecorder`: the fixed top
directory, the open run and phase directories (the empty string of the
source is `none`), the current working directory, and the run identity
mapping.  Directories are lists of path segments. -/
structure RecState where
  topDir : List String
  runDir : Option (List String)
  phaseDir : Option (List String)
  cwd : List String
  current_run_info : List (String × String)
  deriving DecidableEq, Repr

/-- The state of a freshly constructed recorder (`__init__`). -/
def initState (top : List String) : RecState :=
  RecState.mk top none none top []

/-- Model of `phase_end`: when a phase is open, return the working
directory to the run directory (or the top directory if no run) and
clear the phase. -/
def phase_end (s : RecState) : RecState :=
  match s.phaseDir with
  | some _ =>
      { s with
        cwd := match s.runDir with
          | some r => r
          | none => s.topDir,
        phaseDir := none }
  | none => s

/-- Model of `run_end`: end the phase first; when a run is open, return
to the top directory and clear the run directory and identity. -/
def run_end (s : RecState) : RecState :=
  let s1 := phase_end s
  match s1.runDir with
  | some _ => { s1 with cwd := s1.topDir, runDir := none, current_run_info := [] }
  | none => s1

/-- Zero padding of `%04d` for a natural number. -/
def pad4 (n : Nat) : String :=
  let s := toString n
  if s.length < 4 then String.mk (List.replicate (4 - s.length) '0') ++ s else s

/-- The identity arguments of `test_run_start`. -/
structure RunArgs where
  workstation : String
  dut_family : String
  dut_batch : String
  dut_lot : String
  dut_wafer : String
  dut_id : String
  run_set_id : Nat
  run_id : Nat
  deriving DecidableEq, Repr

/-- The leaf directory name of a run. -/
def run_dir_name (a : RunArgs) (ts : String) : String :=
  a.dut_id ++ "_" ++ ts ++ "_S" ++ toString a.run_set_id ++ "_RUN" ++ pad4 a.run_id

/-- Model of `test_run_start`: always ends the current run first, then
creates the run directory tree.  `ts` is the wall-clock timestamp and
`mkdirOk` the filesystem outcome of the directory creation; a failure is
reported as `false` without restoring the ended run. -/
def test_run_start (s : RecState) (a : RunArgs) (ts : String) (mkdirOk : Bool) :
    Bool × RecState :=
  let s1 := run_end s
  let full := s1.topDir ++
    [a.workstation, a.dut_family, a.dut_batch, a.dut_lot, a.dut_wafer, a.dut_id,
     run_dir_name a ts]
  if mkdirOk then
    (true,
     { s1 with
       runDir := some full,
       cwd := full,
       current_run_info :=
        [("workstation", a.workstation), ("dut_family", a.dut_family),
         ("dut_batch", a.dut_batch), ("dut_lot", a.dut_lot),
         ("dut_wafer", a.dut_wafer), ("dut_id", a.dut_id),
         ("run_set_id", toString a.run_set_id), ("run_id", toString a.run_id)] })
  else (false, s1)

/-- Model of `phase_start`: ends the current phase first, fails when no
run is open, otherwise creates the phase directory (`mkdirOk` is the
filesystem outcome). -/
def phase_start (s : RecState) (idx : Nat) (name : String) (mkdirOk : Bool) :
    Bool × RecState :=
  let s1 := phase_end s
  match s1.runDir with
  | none => (false, s1)
  | some r =>
      let p := r ++ [pad4 idx ++ "_" ++ name]
      if mkdirOk then (true, { s1 with phaseDir := some p, cwd := p })
      else (false, s1)

/-- A lifecycle operation together with its nondeterministic
environment inputs (timestamp, filesystem outcomes). -/
inductive Op where
  | runStart (a : RunArgs) (ts : String) (mkdirOk : Bool)
  | phaseStart (idx : Nat) (name : String) (mkdirOk : Bool)
  | runEnd
  | phaseEnd

/-- The state after one lifecycle operation. -/
def step (s : RecState) : Op → RecState
  | .runStart a ts ok => (test_run_start s a ts ok).2
  | .phaseStart i nm ok => (phase_start s i nm ok).2
  | .runEnd => run_end s
  | .phaseEnd => phase_end s

/-- The state after a sequence of lifecycle operations. -/
def runOps (s : RecState) (ops : List Op) : RecState := ops.foldl step s

/-- JSON values of the metadata document.  Numbers carry a `StatVal` so
that the statistics entries (including the symbolic standard deviation
and pandas' NaN) embed exactly. -/
inductive Json where
  | null
  | bool (b : Bool)
  | num (x : StatVal)
  | str (s : String)
  | arr (elems : List Json)
  | obj (fields : List (String × Json))

/-- One generated plot-file descriptor of `plot_files`. -/
structure PlotDesc where
  filename : String
  relative_path : String
  ftype : String
  tab_name : String

/-- A file-write event observed on the filesystem: the table file with
its content, a plot image, or the metadata document. -/
inductive FileWrite where
  | csv (path : List String) (df : DataFrame)
  | plot (path : List String)
  | metadataFile (path : List String) (doc : List (String × Json))

/-- The success bundle returned by `record_complete_dataset`. -/
structure Bundle where
  csv_path : List String
  dataframe : DataFrame
  plot_files : List PlotDesc
  metadata_path : List String
  metadata : List (String × Json)

/-- Filesystem/renderer outcomes supplied by the environment: whether
the table write succeeds, whether the metadata write succeeds, and
which plots render (by plot name, since `create_plot` catches its own
failures). -/
structure FsEnv where
  csvOk : Bool
  metaOk : Bool
  plotOk : String → Bool

/-- An independent/dependent variable selector: an integer position or
a (possibly numeric) name. -/
inductive Sel where
  | int (i : Int)
  | str (s : String)

/-- Python `int(selector)`. -/
def pyIntOfSel : Sel → Option Int
  | .int i => some i
  | .str s => pyIntOfString s

/-- Python `str(selector)`. -/
def selStr : Sel → String
  | .int i => toString i
  | .str s => s

/-- Positional column access `df.columns[i]` with Python's negative
indexing; `none` models the `IndexError`. -/
def colAt (cols : List ColName) (i : Int) : Option ColName :=
  if 0 ≤ i then cols.get? i.toNat
  else if -(cols.length : Int) ≤ i then cols.get? ((cols.length : Int) + i).toNat
  else none

/-- Resolution of one variable selector (`record_complete_dataset`,
independent and dependent selectors use the same logic): try the
selector as an integer position; on a conversion or index failure fall
back to the selector's string form as a column name, raising when that
name is not a column. -/
def resolve_selector (df : DataFrame) (sel : Sel) : Except String ColName :=
  let fallback : Except String ColName :=
    let nm := selStr sel
    if ColName.str nm ∈ colNames df then .ok (ColName.str nm)
    else .error "variable not found in DataFrame columns"
  match pyIntOfSel sel with
  | some i =>
      match colAt (colNames df) i with
      | some c => .ok c
      | none => fallback
  | none => fallback

/-- Resolution of the independent variable and the dependent-variable
list: `none`/`[]` on an empty frame, the first column as default
independent variable, all remaining columns as default dependents. -/
def resolve_xy (df : DataFrame) (tv : Option Sel) (dvs : Option (List Sel)) :
    Except String (Option ColName × List ColName) :=
  if dfEmpty df then .ok (none, [])
  else do
    let x ←
      match tv with
      | none => pure ((colNames df).headD (ColName.nat 0))
      | some sel => resolve_selector df sel
    let ys ←
      match dvs with
      | none => pure ((colNames df).filter fun c => c ≠ x)
      | some l => l.mapM (resolve_selector df)
    pure (some x, ys)

/-- Python truthiness of a column label (`if x_col:`): the integer label
0 and the empty string are falsy. -/
def colTruthy : ColName → Bool
  | .str s => ¬ (s = "")
  | .nat n => ¬ (n = 0)

/-- Python `str()` of a column label, as used in plot/file names and
JSON keys. -/
def showCol : ColName → String
  | .str s => s
  | .nat n => toString n

/-- Model of `_get_relative_path`: the path relative to the top
directory when below it, the full path otherwise, joined with slashes. -/
def relPath (top p : List String) : String :=
  if List.isPrefixOf top p then String.intercalate "/" (p.drop top.length)
  else String.intercalate "/" p

/-- The plot loop of `record_complete_dataset`: one chart per dependent
column; a failed render (per `create_plot`, which catches and returns
`None`) is skipped without aborting the rest. -/
def plotsLoop (env : FsEnv) (s : RecState) (name : String) (x : ColName) :
    List ColName → List FileWrite × List PlotDesc
  | [] => ([], [])
  | y :: ys =>
      let pn := name ++ "_" ++ showCol x ++ "_vs_" ++ showCol y
      let rest := plotsLoop env s name x ys
      if env.plotOk pn then
        (FileWrite.plot (s.cwd ++ [pn ++ ".png"]) :: rest.1,
         PlotDesc.mk (pn ++ ".png") (relPath s.topDir (s.cwd ++ [pn ++ ".png"]))
           "image_png" (pn.replace "_" " ") :: rest.2)
      else rest

/-- Plot generation guard (`if x_col:`): no plots when the independent
column is absent or its label is falsy. -/
def doPlots (env : FsEnv) (s : RecState) (name : String) (xcol : Option ColName)
    (ycols : List ColName) : List FileWrite × List PlotDesc :=
  match xcol with
  | some x => if colTruthy x then plotsLoop env s name x ycols else ([], [])
  | none => ([], [])

/-- Model of `", ".join(y_cols) if y_cols else None`: joining raises a
`TypeError` when a label is not a string (integer column labels). -/
def joinYcols (ycols : List ColName) : Except String (Option String) :=
  match ycols with
  | [] => .ok none
  | _ =>
      if ycols.all fun c => match c with | .str _ => true | _ => false then
        .ok (some (String.intercalate ", " (ycols.map showCol)))
      else .error "sequence item is not a str"

/-- An optional string rendered as JSON. -/
def optStrJson : Option String → Json
  | some s => .str s
  | none => .null

/-- A column label rendered as a JSON value. -/
def colJson : ColName → Json
  | .str s => .str s
  | .nat n => .num (.q (n : ℚ))

/-- A plot descriptor rendered as the JSON record written to
`plot_files`. -/
def plotDescJson (d : PlotDesc) : Json :=
  .obj [("filename", .str d.filename), ("relative_path", .str d.relative_path),
        ("type", .str d.ftype), ("tab_name", .str d.tab_name)]

/-- A cell value rendered as JSON (`json.dump`; NaN is emitted as the
non-standard NaN literal). -/
def valToJson : Val → Json
  | .num q => .num (.q q)
  | .str s => .str s
  | .seq vs => .arr (vs.map fun p =>
      match p with
      | .pnum q => Json.num (.q q)
      | .pstr s => Json.str s)
  | .missing => .num .nan

/-- Model of `df.head(5).to_dict('records')` (JSON object keys are the
stringified column labels, as `json.dump` stringifies them). -/
def previewJson (df : DataFrame) : Json :=
  if dfEmpty df then .arr []
  else
    .arr ((List.range (min 5 (nrows df))).map fun i =>
      .obj (df.map fun c => (showCol c.1, valToJson ((c.2.get? i).getD Val.missing))))

/-- The statistics mapping rendered as JSON. -/
def statsJson (g : List (ColName × List (String × StatVal))) : Json :=
  .obj (g.map fun e => (showCol e.1, Json.obj (e.2.map fun kv => (kv.1, Json.num kv.2))))

/-- The metadata document assembled by `record_complete_dataset`, with
its fields in source order. -/
def buildMetadata (s : RecState) (test_info environment_info : List (String × Json))
    (dut_fab dut_subchip_id dut_subcomponent_id equipment_ids script_version comments :
      Option String)
    (xcol : Option ColName) (yjoin : Option String) (ts : String) (df : DataFrame)
    (csvPath : List String) (plotFiles : List PlotDesc)
    (parameters : Option (List (String × Json))) : List (String × Json) :=
  [("test_location", (test_info.lookup "test_location").getD .null),
   ("test_user", (test_info.lookup "test_user").getD .null),
   ("test_name", (test_info.lookup "test_name").getD .null)]
  ++ s.current_run_info.map (fun kv => (kv.1, Json.str kv.2))
  ++ [("dut_fab", optStrJson dut_fab),
      ("dut_subchip_id", optStrJson dut_subchip_id),
      ("dut_subcomponent_id", optStrJson dut_subcomponent_id),
      ("equipment_ids", optStrJson equipment_ids),
      ("testing_variable_ids",
        match xcol with
        | some c => if colTruthy c then colJson c else .null
        | none => .null),
      ("dependent_variable_ids",
        match yjoin with
        | some j => .str j
        | none => .null),
      ("environment_temp", (environment_info.lookup "environment_temp").getD .null),
      ("environment_humidity", (environment_info.lookup "environment_humidity").getD .null),
      ("script_version", optStrJson script_version),
      ("comments", optStrJson comments),
      ("timestamp_generated_utc", .str ts),
      ("data_preview", previewJson df),
      ("basic_statistics", statsJson (generate_basic_statistics df)),
      ("csv_relative_path", .str (relPath s.topDir csvPath)),
      ("plot_files", .arr (plotFiles.map plotDescJson)),
      ("sql_table_name", .null),
      ("sql_relative_path", .null),
      ("nd_data_tables", .arr []),
      ("parameters", Json.obj (parameters.getD []))]

/-- The required `test_info` keys. -/
def requiredTestFields : List String := ["test_name", "test_location", "test_user"]

/-- The required `environment_info` keys. -/
def requiredEnvFields : List String := ["environment_temp", "environment_humidity"]

/-- Whether a required `test_info` or `environment_info` field is
missing (the two validation loops of `record_complete_dataset`). -/
def missingRequired (ti ei : List (String × Json)) : Bool :=
  (requiredTestFields.any fun f => (ti.lookup f).isNone) ||
  (requiredEnvFields.any fun f => (ei.lookup f).isNone)

/-- The explicit column renaming step (`if column_names:`): an empty
list is falsy and ignored; a non-empty list must match the column count
exactly. -/
def applyColumnNames (df : DataFrame) (cns : Option (List String)) :
    Except String DataFrame :=
  match cns with
  | none => .ok df
  | some l =>
      if l.isEmpty then .ok df
      else if l.length ≠ df.length then .error "column names length mismatch"
      else .ok ((l.map ColName.str).zip (df.map Prod.snd))

/-- The data pipeline of `record_complete_dataset` before the table
write: normalisation, explicit renaming, cleaning. -/
def prepared (cfg : DataConfig) (data : InputData) (headers : Option (List String))
    (cns : Option (List String)) : Except String DataFrame :=
  match convert_to_dataframe data headers with
  | .error e => .error e
  | .ok df0 =>
      match applyColumnNames df0 cns with
      | .error e => .error e
      | .ok df1 => process_dataframe cfg df1

/-- Model of `record_complete_dataset`.  The whole Python body runs in a
`try` whose `except Exception` logs and returns `None`; accordingly this
function is total, pairs the list of file writes actually performed with
the optional success bundle, and maps every internal failure to `none`.
`ts` is the generation timestamp; `plot_config` and the `csv_kwargs`
pass-through only affect rendering style and delimited-text formatting
and are not modelled. -/
def record_complete_dataset (env : FsEnv) (s : RecState) (cfg : DataConfig)
    (name : String) (data : InputData) (test_info environment_info : List (String × Json))
    (column_names : Option (List String)) (testing_variable : Option Sel)
    (dependent_variables : Option (List Sel)) (headers : Option (List String))
    (parameters : Option (List (String × Json)))
    (equipment_ids dut_fab dut_subchip_id dut_subcomponent_id script_version comments :
      Option String)
    (ts : String) : List FileWrite × Option Bundle :=
  if missingRequired test_info environment_info then ([], none)
  else
    match prepared cfg data headers column_names with
    | .error _ => ([], none)
    | .ok df =>
        if env.csvOk = false then ([], none)
        else
          let csvPath := s.cwd ++ [name ++ ".csv"]
          match resolve_xy df testing_variable dependent_variables with
          | .error _ => ([FileWrite.csv csvPath df], none)
          | .ok xy =>
              let pr := doPlots env s name xy.1 xy.2
              match joinYcols xy.2 with
              | .error _ => (FileWrite.csv csvPath df :: pr.1, none)
              | .ok yjoin =>
                  let md := buildMetadata s test_info environment_info dut_fab
                    dut_subchip_id dut_subcomponent_id equipment_ids script_version
                    comments xy.1 yjoin ts df csvPath pr.2 parameters
                  if env.metaOk = false then (FileWrite.csv csvPath df :: pr.1, none)
                  else
                    (FileWrite.csv csvPath df ::
                       pr.1 ++ [FileWrite.metadataFile (s.cwd ++ ["metadata.json"]) md],
                     some (Bundle.mk csvPath df pr.2 (s.cwd ++ ["metadata.json"]) md))

/-- The validation-failure cases of claim C1: a missing required
`test_info`/`environment_info` field, a non-empty `column_names` list
whose length mismatches the normalised column count, or (with every
earlier stage succeeding and the table write succeeding) an
independent/dependent-variable selector that resolves to no column. -/
def validationFailure (env : FsEnv) (cfg : DataConfig) (data : InputData)
    (ti ei : List (String × Json)) (cns : Option (List String))
    (tv : Option Sel) (dvs : Option (List Sel)) (hdrs : Option (List String)) : Prop :=
  missingRequired ti ei = true ∨
  (∃ df0 l, missingRequired ti ei = false ∧ convert_to_dataframe data hdrs = .ok df0 ∧
      cns = some l ∧ l.isEmpty = false ∧ l.length ≠ df0.length) ∨
  (∃ df, missingRequired ti ei = false ∧ prepared cfg data hdrs cns = .ok df ∧
      env.csvOk = true ∧ ∃ e, resolve_xy df tv dvs = .error e)

/-! ### Lifecycle invariant -/

/-- The inductive lifecycle invariant: the working directory is the
phase directory while a phase is open (and a phase implies a run), the
run directory while only a run is open, and the top directory
otherwise. -/
def LifeInv (s : RecState) : Prop :=
  (∀ p, s.phaseDir = some p → s.cwd = p ∧ s.runDir.isSome = true) ∧
  (s.phaseDir = none → s.runDir = none → s.cwd = s.topDir) ∧
  (∀ r, s.phaseDir = none → s.runDir = some r → s.cwd = r)

theorem lifeInv_init (top : List String) : LifeInv (initState top) := by
  refine ⟨?_, ?_, ?_⟩ <;> intros <;> simp_all [initState, LifeInv]

theorem phase_end_phaseDir (s : RecState) : (phase_end s).phaseDir = none := by
  cases h : s.phaseDir <;> simp [phase_end, h]

theorem lifeInv_phase_end (s : RecState) (hs : LifeInv s) : LifeInv (phase_end s) := by
  obtain ⟨h1, h2, h3⟩ := hs
  cases hp : s.phaseDir with
  | none => simpa [phase_end, hp] using ⟨h1, h2, h3⟩
  | some p =>
      cases hr : s.runDir with
      | none => refine ⟨?_, ?_, ?_⟩ <;> intros <;> simp_all [phase_end, hp, hr]
      | some r => refine ⟨?_, ?_, ?_⟩ <;> intros <;> simp_all [phase_end, hp, hr]

theorem lifeInv_run_end (s : RecState) (hs : LifeInv s) : LifeInv (run_end s) := by
  have h1 := lifeInv_phase_end s hs
  have hp := phase_end_phaseDir s
  cases hr : (phase_end s).runDir with
  | none => simpa [run_end, hr] using h1
  | some r => refine ⟨?_, ?_, ?_⟩ <;> intros <;> simp_all [run_end, hr]

theorem run_end_runDir (s : RecState) : (run_end s).runDir = none := by
  cases hr : (phase_end s).runDir <;> simp [run_end, hr]

theorem run_end_phaseDir (s : RecState) : (run_end s).phaseDir = none := by
  cases hr : (phase_end s).runDir <;> simp [run_end, hr, phase_end_phaseDir]

theorem lifeInv_step (s : RecState) (op : Op) (hs : LifeInv s) : LifeInv (step s op) := by
  cases op with
  | runStart a ts ok =>
      have h1 := lifeInv_run_end s hs
      have hp := run_end_phaseDir s
      cases ok with
      | false => simpa [step, test_run_start] using h1
      | true =>
          refine ⟨?_, ?_, ?_⟩ <;> intros <;>
            simp_all [step, test_run_start]
  | phaseStart i nm ok =>
      have h1 := lifeInv_phase_end s hs
      have hp := phase_end_phaseDir s
      cases hr : (phase_end s).runDir with
      | none => simpa [step, phase_start, hr] using h1
      | some r =>
          cases ok with
          | false => simpa [step, phase_start, hr] using h1
          | true =>
              refine ⟨?_, ?_, ?_⟩ <;> intros <;>
                simp_all [step, phase_start, hr]
  | runEnd => exact lifeInv_run_end s hs
  | phaseEnd => exact lifeInv_phase_end s hs

theorem lifeInv_runOps (s : RecState) (ops : List Op) (hs : LifeInv s) :
    LifeInv (runOps s ops) := by
  induction ops generalizing s with
  | nil => exact hs
  | cons op rest ih => exact ih (step s op) (lifeInv_step s op hs)

/-- C3: after any sequence of lifecycle operations (including failed
ones) starting from a fresh recorder, the current working directory is
the phase directory while a phase is open, the run directory while a
run but no phase is open, and the top directory otherwise — always the
most specific directory currently open. -/
theorem c3_cwd_invariant (top : List String) (ops : List Op) :
    (∀ p, (runOps (initState top) ops).phaseDir = some p →
        (runOps (initState top) ops).cwd = p) ∧
    (∀ r, (runOps (initState top) ops).phaseDir = none →
        (runOps (initState top) ops).runDir = some r →
        (runOps (initState top) ops).cwd = r) ∧
    ((runOps (initState top) ops).phaseDir = none →
        (runOps (initState top) ops).runDir = none →
        (runOps (initState top) ops).cwd = (runOps (initState top) ops).topDir) := by
  have h := lifeInv_runOps (initState top) ops (lifeInv_init top)
  exact ⟨fun p hp => (h.1 p hp).1, fun r hp hr => h.2.2 r hp hr, h.2.1⟩

/-- Witness for C3 at a concrete operation sequence. -/
theorem c3_cwd_invariant_witness :
    (runOps (initState ["top"]) []).cwd = (runOps (initState ["top"]) []).topDir :=
  (c3_cwd_invariant ["top"] []).2.2 rfl rfl

/-- C9: on any reachable recorder state, `run_end` with no active run
and `phase_end` with no active phase are no-ops — they do not raise
(the model is total) and leave the whole state unchanged, so both
operations are idempotent. -/
theorem c9_end_noop (top : List String) (ops : List Op) :
    ((runOps (initState top) ops).runDir = none →
        run_end (runOps (initState top) ops) = runOps (initState top) ops) ∧
    ((runOps (initState top) ops).phaseDir = none →
        phase_end (runOps (initState top) ops) = runOps (initState top) ops) := by
  have hinv := lifeInv_runOps (initState top) ops (lifeInv_init top)
  constructor
  · intro hr
    have hp : (runOps (initState top) ops).phaseDir = none := by
      cases hq : (runOps (initState top) ops).phaseDir with
      | none => rfl
      | some p => simp [hr] at hinv; exact absurd (hinv.1 p hq).2 (by simp [hr])
    unfold run_end
    simp [phase_end, hp, hr]
  · intro hp
    simp [phase_end, hp]

/-- Witness for C9 at the fresh recorder state. -/
theorem c9_end_noop_witness :
    run_end (runOps (initState ["top"]) []) = runOps (initState ["top"]) [] ∧
    phase_end (runOps (initState ["top"]) []) = runOps (initState ["top"]) [] :=
  ⟨(c9_end_noop ["top"] []).1 rfl, (c9_end_noop ["top"] []).2 rfl⟩

/-- C10: when `test_run_start` is called while a run (and possibly a
phase) is active and the new run's directory creation fails, the
previous run and phase have already been ended: the call returns false
and leaves no active run or phase, empty run identity info, and the top
directory as working directory — the prior run is not restored. -/
theorem c10_failed_restart (s : RecState) (a : RunArgs) (ts : String)
    (h : s.runDir.isSome = true) :
    test_run_start s a ts false =
      (false, RecState.mk s.topDir none none s.topDir []) := by
  obtain ⟨r, hr⟩ := Option.isSome_iff_exists.mp h
  cases hp : s.phaseDir <;>
    simp [test_run_start, run_end, phase_end, hp, hr]

/-- Witness for C10 at a concrete state with an open run and phase. -/
theorem c10_failed_restart_witness :
    test_run_start
        (RecState.mk ["t"] (some ["t", "r"]) (some ["t", "r", "p"]) ["t", "r", "p"]
          [("dut_id", "x")])
        (RunArgs.mk "w" "f" "b" "l" "wf" "d" 1 1) "TS" false =
      (false, RecState.mk ["t"] none none ["t"] []) :=
  c10_failed_restart _ _ _ rfl

/-! ### Cleaning-pass claims -/

/-- C4 counterexample: the column `["1", "abc"]` has a non-missing value
(`"abc"`) that does not convert to a number, so the claim says it keeps
its text type and its values unchanged; the code promotes it anyway
(since at least one value converts) and turns `"abc"` into the missing
marker. -/
theorem c4_counterexample :
    autoDetectCol [Val.str "1", Val.str "abc"] = .ok [Val.num 1, Val.missing] ∧
    parseRat "abc" = none ∧
    ([Val.num 1, Val.missing] : List Val) ≠ [Val.str "1", Val.str "abc"] ∧
    isNumericCol [Val.num 1, Val.missing] = true :=
  ⟨rfl, rfl, by decide, rfl⟩

/-- C4 (amended): with type auto-detection enabled, a text-typed column
of scalar cells is promoted to the coerced numeric series if and only if
at least one of its values converts to a number (non-convertible values
becoming missing); a text column in which no value converts is left
entirely unchanged. -/
theorem c4_promotion (c : List Val) (hseq : c.any isSeqV = false)
    (htext : isNumericCol c = false) :
    ((c.map coerceVal).any isNumV = true → autoDetectCol c = .ok (c.map coerceVal)) ∧
    ((c.map coerceVal).any isNumV = false → autoDetectCol c = .ok c) := by
  constructor <;> intro h <;> simp [autoDetectCol, htext, hseq, h]

/-- Witness for C4 at a concrete convertible-and-not column. -/
theorem c4_promotion_witness :
    autoDetectCol [Val.str "7", Val.str "y", Val.missing] =
      .ok [Val.num 7, Val.missing, Val.missing] := by
  rw [(c4_promotion [Val.str "7", Val.str "y", Val.missing] (by decide) (by decide)).1
    (by decide)]
  rfl

/-- C7: under the `fill` missing-value policy, every missing value of a
numeric column is replaced by the column mean of the non-missing values,
every missing value of a non-numeric column by the column mode (or the
literal `"Unknown"` when no mode exists), and all non-missing values are
unchanged. -/
theorem c7_fill_policy (c : List Val) (hseq : c.any isSeqV = false) :
    (isNumericCol c = true → ∀ m, colMean c = some m →
        fillCol c = .ok (c.map fun v => if v = Val.missing then Val.num m else v)) ∧
    (isNumericCol c = false →
        ∃ fv, fillCol c = .ok (c.map fun v => if v = Val.missing then fv else v) ∧
          ((∃ mv, modeOf c = .ok (some mv) ∧ fv = mv) ∨
           (modeOf c = .ok none ∧ fv = Val.str "Unknown"))) := by
  constructor
  · intro hnum m hm
    simp [fillCol, hnum, hm]
  · intro hnn
    obtain ⟨mv, hmv⟩ : ∃ mv, modeOf c = .ok mv := by
      unfold modeOf
      simp only [hseq, Bool.false_eq_true, if_false]
      split <;> exact ⟨_, rfl⟩
    cases mv with
    | some m => exact ⟨m, by simp [fillCol, hnn, hmv], Or.inl ⟨m, hmv, rfl⟩⟩
    | none => exact ⟨Val.str "Unknown", by simp [fillCol, hnn, hmv], Or.inr ⟨hmv, rfl⟩⟩

/-- Witness for C7 at the specification's example: the numeric column
`[1, missing, 3]` becomes `[1, 2, 3]` (column mean of 1 and 3). -/
theorem c7_fill_policy_witness :
    fillCol [Val.num 1, Val.missing, Val.num 3] = .ok [Val.num 1, Val.num 2, Val.num 3] := by
  have hm : colMean [Val.num 1, Val.missing, Val.num 3] = some 2 := by
    simp [colMean, numsOf]
    norm_num
  rw [(c7_fill_policy [Val.num 1, Val.missing, Val.num 3] (by decide)).1 (by decide) 2 hm]
  rfl

/-! ### Normalizer claims -/

/-- C5 counterexample: for the mapping with a sequence value
`a ↦ [1, 2]` and a scalar value `b ↦ 3`, the claim's "otherwise" branch
(some value is a sequence) predicts one row per sequence element (two
rows); the code takes the one-row branch because not all values are
sequences, storing the sequence as a single cell. -/
theorem c5_counterexample :
    convert_to_dataframe
        (.dict [("a", Val.seq [Prim.pnum 1, Prim.pnum 2]), ("b", Val.num 3)]) none =
      .ok [(ColName.str "a", [Val.seq [Prim.pnum 1, Prim.pnum 2]]),
           (ColName.str "b", [Val.num 3])] ∧
    nrows [(ColName.str "a", [Val.seq [Prim.pnum 1, Prim.pnum 2]]),
           (ColName.str "b", [Val.num 3])] = 1 ∧
    seqLen (Val.seq [Prim.pnum 1, Prim.pnum 2]) = 2 :=
  ⟨rfl, rfl, rfl⟩

/-- C5 (amended): a key-value mapping normalises to a one-row table (one
column per key, sequence values kept as single cells) whenever not every
value is a sequence; when every value is a sequence (of equal lengths)
the result has one column per key with one row per element.  In
particular `a ↦ 1, b ↦ 2` yields a single-row two-column table. -/
theorem c5_dict_normalization (kvs : List (String × Val)) (headers : Option (List String)) :
    ((kvs.all fun kv => isSeqV kv.2) = false →
        convert_to_dataframe (.dict kvs) headers =
          .ok (kvs.map fun kv => (ColName.str kv.1, [kv.2])) ∧
        (kvs ≠ [] → nrows (kvs.map fun kv => (ColName.str kv.1, [kv.2])) = 1)) ∧
    (∀ l, (kvs.all fun kv => isSeqV kv.2) = true →
        (∀ kv ∈ kvs, seqLen kv.2 = l) →
        convert_to_dataframe (.dict kvs) headers =
          .ok (kvs.map fun kv => (ColName.str kv.1, seqVals kv.2))) := by
  constructor
  · intro h
    refine ⟨by simp [convert_to_dataframe, h], ?_⟩
    intro hne
    cases kvs with
    | nil => exact absurd rfl hne
    | cons kv rest => simp [nrows]
  · intro l hall hlen
    cases kvs with
    | nil => simp [convert_to_dataframe]
    | cons kv rest =>
        have hk : seqLen kv.2 = l := hlen kv (by simp)
        have hcond : ((rest.map fun kv => seqLen kv.2).all fun x => x = seqLen kv.2) = true := by
          simp only [List.all_eq_true, List.mem_map, decide_eq_true_eq]
          rintro x ⟨y, hy, rfl⟩
          rw [hlen y (by simp [hy]), hk]
        simp [convert_to_dataframe, hall, hcond]

/-- Witness for C5 at the specification's example mapping. -/
theorem c5_dict_normalization_witness :
    convert_to_dataframe (.dict [("a", Val.num 1), ("b", Val.num 2)]) none =
      .ok [(ColName.str "a", [Val.num 1]), (ColName.str "b", [Val.num 2])] := by
  rw [((c5_dict_normalization [("a", Val.num 1), ("b", Val.num 2)] none).1 (by decide)).1]
  rfl

/-- C8 counterexample: a numeric matrix without headers keeps the
positional integer column labels `0, 1` of the default RangeIndex; the
columns are not renamed to `col_0, col_1`. -/
theorem c8_counterexample :
    convert_to_dataframe (.matrix [[1, 2]]) none =
      .ok [(ColName.nat 0, [Val.num 1]), (ColName.nat 1, [Val.num 2])] ∧
    colNames [(ColName.nat 0, [Val.num 1]), (ColName.nat 1, [Val.num 2])] ≠ genericNames 2 :=
  ⟨rfl, by decide⟩

/-- C8 (amended): the generic column names `col_0, col_1, …` are
assigned exactly by the text-file parser, when no header line is
detected or the detected header's length mismatches the column count;
matrix and sequence-of-sequences inputs whose supplied header list is
absent or mismatched instead keep the positional integer labels
`0, 1, …`. -/
theorem c8_generic_names (lines : List String) (rows : List (List Val))
    (headers : Option (List String)) :
    (txtDataRows lines ≠ [] →
        ¬ (txtHeaderDetected lines = true ∧
            (txtFirstTokens lines).length = txtMaxCols lines) →
        colNames (parse_txt_file lines) = genericNames (txtMaxCols lines)) ∧
    (¬ (∃ hs, headers = some hs ∧ hs ≠ [] ∧ hs.length = maxLen rows) →
        colNames (rowsToDf rows headers) = natLabels (maxLen rows)) ∧
    (∀ r rest, convert_to_dataframe (.matrix (r :: rest)) headers =
        .ok (rowsToDf ((r :: rest).map fun row => row.map Val.num) headers)) ∧
    (∀ (r : List Val) rest, convert_to_dataframe (.listOfLists r rest) headers =
        .ok (rowsToDf (r :: rest) headers)) := by
  refine ⟨?_, ?_, fun r rest => rfl, fun r rest => rfl⟩
  · intro h1 h2
    cases hl : txtLines lines with
    | nil => exact absurd (by simp [txtDataRows, hl]) h1
    | cons l rest =>
        have hname : ¬ (txtHeaderDetected lines = true ∧
            (txtFirstTokens lines).length = maxLen (txtDataRows lines)) := h2
        simp only [parse_txt_file, hl, colNames]
        rw [if_neg h1, if_neg hname]
        have hlen : (genericNames (maxLen (txtDataRows lines))).length ≤
            ((List.range (maxLen (txtDataRows lines))).map fun j =>
              (txtDataRows lines).map fun r =>
                coerceVal (((r.get? j).map Val.str).getD Val.missing)).length := by
          simp [genericNames]
        rw [List.map_fst_zip _ _ hlen]
        rfl
  · intro h
    have key : ∀ (names : List ColName), names.length = maxLen rows →
        colNames (names.zip ((List.range (maxLen rows)).map fun j =>
          rows.map fun r => (r.get? j).getD Val.missing)) = names := by
      intro names hn
      unfold colNames
      rw [List.map_fst_zip]
      simp [hn]
    cases headers with
    | none =>
        simp only [rowsToDf]
        exact key (natLabels (maxLen rows)) (by simp [natLabels])
    | some hs =>
        have hcond : ¬ (hs ≠ [] ∧ hs.length = maxLen rows) := fun hx => h ⟨hs, rfl, hx.1, hx.2⟩
        simp only [rowsToDf]
        rw [if_neg hcond]
        exact key (natLabels (maxLen rows)) (by simp [natLabels])

/-- Witness for C8 at a concrete headerless text file. -/
theorem c8_generic_names_witness :
    colNames (parse_txt_file ["1 2"]) = genericNames 2 := by
  have h := (c8_generic_names ["1 2"] [] none).1 (by decide) (by decide)
  simpa using h

/-! ### Statistics claims -/

/-- C6 counterexample: the per-column statistics record uses the pandas
`describe` percentile labels `25%`, `50%`, `75%`, not `p25`, `p50`,
`p75` as the claim enumerates. -/
theorem c6_counterexample :
    ((generate_basic_statistics [(ColName.str "c", [Val.num 1])]).map fun e =>
        e.2.map Prod.fst) =
      [["count", "mean", "std", "min", "25%", "50%", "75%", "max"]] ∧
    ((generate_basic_statistics [(ColName.str "c", [Val.num 1])]).map fun e =>
        e.2.map Prod.fst) ≠
      [["count", "mean", "std", "min", "p25", "p50", "p75", "max"]] :=
  ⟨rfl, by decide⟩

/-- C6 (amended): every record of the per-numeric-column statistics
mapping has exactly the keys `count, mean, std, min, 25%, 50%, 75%,
max`, in that order, and the mapping is stored under the
`basic_statistics` field of the metadata document. -/
theorem c6_stats_keys (df : DataFrame) :
    (∀ e ∈ generate_basic_statistics df,
        e.2.map Prod.fst = ["count", "mean", "std", "min", "25%", "50%", "75%", "max"]) ∧
    (∀ s ti ei fab sub subc eq ver com xcol yjoin ts csvPath plotFiles params,
        ("basic_statistics", statsJson (generate_basic_statistics df)) ∈
          buildMetadata s ti ei fab sub subc eq ver com xcol yjoin ts df csvPath
            plotFiles params) := by
  constructor
  · intro e he
    obtain ⟨c, hc, rfl⟩ := List.mem_map.mp he
    simp [statsForCol]
  · intro s ti ei fab sub subc eq ver com xcol yjoin ts csvPath plotFiles params
    simp [buildMetadata]

/-- Witness for C6 at a concrete one-column frame. -/
theorem c6_stats_keys_witness :
    (statsForCol [Val.num 1]).map Prod.fst =
      ["count", "mean", "std", "min", "25%", "50%", "75%", "max"] := by
  have hmem : generate_basic_statistics [(ColName.str "c", [Val.num 1])] =
      [(ColName.str "c", statsForCol [Val.num 1])] := rfl
  have h := (c6_stats_keys [(ColName.str "c", [Val.num 1])]).1
    (ColName.str "c", statsForCol [Val.num 1]) (hmem ▸ List.mem_singleton.mpr rfl)
  simpa using h

/-! ### Recorder orchestrator claims -/

theorem applyColumnNames_mismatch (df0 : DataFrame) (l : List String)
    (h1 : l.isEmpty = false) (h2 : l.length ≠ df0.length) :
    applyColumnNames df0 (some l) = .error "column names length mismatch" := by
  simp [applyColumnNames, h1, h2]

theorem prepared_error_of_mismatch (cfg : DataConfig) (data : InputData)
    (hdrs : Option (List String)) (df0 : DataFrame) (l : List String)
    (hc : convert_to_dataframe data hdrs = .ok df0) (h1 : l.isEmpty = false)
    (h2 : l.length ≠ df0.length) :
    prepared cfg data hdrs (some l) = .error "column names length mismatch" := by
  simp [prepared, hc, applyColumnNames_mismatch df0 l h1 h2]

/-- C1 counterexample: an unresolvable independent-variable selector is
reported as a failure result, but only after the table file has been
written — the write list is non-empty, contradicting "no files are
written". -/
theorem c1_counterexample :
    record_complete_dataset (FsEnv.mk true true fun _ => true) (initState ["top"])
        (DataConfig.mk false "drop" 6 "utf-8") "d"
        (.frame [(ColName.str "a", [Val.num 1]), (ColName.str "b", [Val.num 2])])
        [("test_name", Json.str "t"), ("test_location", Json.str "l"),
         ("test_user", Json.str "u")]
        [("environment_temp", Json.null), ("environment_humidity", Json.null)]
        none (some (Sel.str "zz")) none none none none none none none none none "TS" =
      ([FileWrite.csv ["top", "d.csv"]
          [(ColName.str "a", [Val.num 1]), (ColName.str "b", [Val.num 2])]], none) ∧
    ([FileWrite.csv ["top", "d.csv"]
        [(ColName.str "a", [Val.num 1]), (ColName.str "b", [Val.num 2])]] :
      List FileWrite) ≠ [] :=
  ⟨rfl, by simp⟩

/-- C1 (amended): every validation failure (missing required field,
mismatched column-name count, unresolvable variable selector) makes
`record_complete_dataset` return the failure sentinel, and no plot image
or metadata document is ever written; for the missing-field and
column-count failures no file at all is written (the unresolvable
selector is only detected after the table file has been written). -/
theorem c1_validation_failures (env : FsEnv) (s : RecState) (cfg : DataConfig)
    (name : String) (data : InputData) (ti ei : List (String × Json))
    (cns : Option (List String)) (tv : Option Sel) (dvs : Option (List Sel))
    (hdrs : Option (List String)) (params : Option (List (String × Json)))
    (eqid fab sub subc ver com : Option String) (ts : String)
    (h : validationFailure env cfg data ti ei cns tv dvs hdrs) :
    (record_complete_dataset env s cfg name data ti ei cns tv dvs hdrs params eqid fab
        sub subc ver com ts).2 = none ∧
    (∀ w ∈ (record_complete_dataset env s cfg name data ti ei cns tv dvs hdrs params
        eqid fab sub subc ver com ts).1, ∃ p d, w = FileWrite.csv p d) ∧
    ((missingRequired ti ei = true ∨
        (∃ df0 l, convert_to_dataframe data hdrs = .ok df0 ∧ cns = some l ∧
          l.isEmpty = false ∧ l.length ≠ df0.length)) →
      (record_complete_dataset env s cfg name data ti ei cns tv dvs hdrs params eqid
        fab sub subc ver com ts).1 = []) := by
  rcases h with hmiss | ⟨df0, l, hm, hc, hcns, h1, h2⟩ | ⟨df, hm, hp, hcsv, e, hres⟩
  · refine ⟨?_, ?_, ?_⟩ <;> simp [record_complete_dataset, hmiss]
  · subst hcns
    have hpe := prepared_error_of_mismatch cfg data hdrs df0 l hc h1 h2
    refine ⟨?_, ?_, ?_⟩ <;> simp [record_complete_dataset, hm, hpe]
  · refine ⟨?_, ?_, ?_⟩
    · simp [record_complete_dataset, hm, hp, hcsv, hres]
    · intro w hw
      simp [record_complete_dataset, hm, hp, hcsv, hres] at hw
      exact ⟨_, _, hw⟩
    · intro habs
      rcases habs with hmiss | ⟨df0, l, hc, hcns, h1, h2⟩
      · rw [hm] at hmiss
        cases hmiss
      · subst hcns
        have hpe := prepared_error_of_mismatch cfg data hdrs df0 l hc h1 h2
        rw [hp] at hpe
        cases hpe

/-- Witness for C1 at the specification's own example: `environment_info`
missing `environment_humidity` yields a failure and no files at all. -/
theorem c1_validation_failures_witness :
    (record_complete_dataset (FsEnv.mk true true fun _ => true) (initState ["top"])
        (DataConfig.mk false "drop" 6 "utf-8") "d" (.dict [("a", Val.num 1)])
        [("test_name", Json.str "t"), ("test_location", Json.str "l"),
         ("test_user", Json.str "u")]
        [("environment_temp", Json.null)]
        none none none none none none none none none none none "TS").1 = [] ∧
    (record_complete_dataset (FsEnv.mk true true fun _ => true) (initState ["top"])
        (DataConfig.mk false "drop" 6 "utf-8") "d" (.dict [("a", Val.num 1)])
        [("test_name", Json.str "t"), ("test_location", Json.str "l"),
         ("test_user", Json.str "u")]
        [("environment_temp", Json.null)]
        none none none none none none none none none none none "TS").2 = none := by
  have h := c1_validation_failures (FsEnv.mk true true fun _ => true) (initState ["top"])
    (DataConfig.mk false "drop" 6 "utf-8") "d" (.dict [("a", Val.num 1)])
    [("test_name", Json.str "t"), ("test_location", Json.str "l"),
     ("test_user", Json.str "u")]
    [("environment_temp", Json.null)]
    none none none none none none none none none none none "TS" (Or.inl (by decide))
  exact ⟨h.2.2 (Or.inl (by decide)), h.1⟩

theorem plotsLoop_mem (env : FsEnv) (s : RecState) (name : String) (x : ColName)
    (ys : List ColName) :
    ∀ d ∈ (plotsLoop env s name x ys).2,
      FileWrite.plot (s.cwd ++ [d.filename]) ∈ (plotsLoop env s name x ys).1 := by
  induction ys with
  | nil => intro d hd; simp [plotsLoop] at hd
  | cons y ys ih =>
      intro d hd
      cases hok : env.plotOk (name ++ "_" ++ showCol x ++ "_vs_" ++ showCol y) with
      | false =>
          simp only [plotsLoop, hok, Bool.false_eq_true, if_false] at hd ⊢
          exact ih d hd
      | true =>
          simp only [plotsLoop, hok, if_true] at hd ⊢
          rcases List.mem_cons.mp hd with hd | hd
          · subst hd
            exact List.mem_cons_self _ _
          · exact List.mem_cons_of_mem _ (ih d hd)

theorem doPlots_mem (env : FsEnv) (s : RecState) (name : String)
    (xcol : Option ColName) (ycols : List ColName) :
    ∀ d ∈ (doPlots env s name xcol ycols).2,
      FileWrite.plot (s.cwd ++ [d.filename]) ∈ (doPlots env s name xcol ycols).1 := by
  cases xcol with
  | none => intro d hd; simp [doPlots] at hd
  | some x =>
      cases ht : colTruthy x with
      | false => intro d hd; simp [doPlots, ht] at hd
      | true =>
          intro d hd
          simp only [doPlots, ht, if_true] at hd ⊢
          exact plotsLoop_mem env s name x ycols d hd

/-- C2: `record_complete_dataset` is total (the model of its catch-all
`except` clause): for every input it either returns the `none` failure
sentinel or a success bundle whose fields reference the cleaned table
(identical to the written table-file content), the written metadata
document, the table file location in the current working directory, and
plot descriptors each of which has a corresponding written plot file. -/
theorem c2_no_exception (env : FsEnv) (s : RecState) (cfg : DataConfig)
    (name : String) (data : InputData) (ti ei : List (String × Json))
    (cns : Option (List String)) (tv : Option Sel) (dvs : Option (List Sel))
    (hdrs : Option (List String)) (params : Option (List (String × Json)))
    (eqid fab sub subc ver com : Option String) (ts : String) :
    (record_complete_dataset env s cfg name data ti ei cns tv dvs hdrs params eqid fab
        sub subc ver com ts).2 = none ∨
    ∃ b, (record_complete_dataset env s cfg name data ti ei cns tv dvs hdrs params eqid
        fab sub subc ver com ts).2 = some b ∧
      b.csv_path = s.cwd ++ [name ++ ".csv"] ∧
      b.metadata_path = s.cwd ++ ["metadata.json"] ∧
      FileWrite.csv b.csv_path b.dataframe ∈ (record_complete_dataset env s cfg name
        data ti ei cns tv dvs hdrs params eqid fab sub subc ver com ts).1 ∧
      FileWrite.metadataFile b.metadata_path b.metadata ∈ (record_complete_dataset env
        s cfg name data ti ei cns tv dvs hdrs params eqid fab sub subc ver com ts).1 ∧
      ∀ d ∈ b.plot_files, FileWrite.plot (s.cwd ++ [d.filename]) ∈
        (record_complete_dataset env s cfg name data ti ei cns tv dvs hdrs params eqid
          fab sub subc ver com ts).1 := by
  cases hmr : missingRequired ti ei with
  | true => exact Or.inl (by simp [record_complete_dataset, hmr])
  | false =>
      cases hp : prepared cfg data hdrs cns with
      | error e => exact Or.inl (by simp [record_complete_dataset, hmr, hp])
      | ok df =>
          cases hcsv : env.csvOk with
          | false => exact Or.inl (by simp [record_complete_dataset, hmr, hp, hcsv])
          | true =>
              cases hres : resolve_xy df tv dvs with
              | error e =>
                  exact Or.inl (by simp [record_complete_dataset, hmr, hp, hcsv, hres])
              | ok xy =>
                  cases hj : joinYcols xy.2 with
                  | error e =>
                      exact Or.inl
                        (by simp [record_complete_dataset, hmr, hp, hcsv, hres, hj])
                  | ok yj =>
                      cases hmeta : env.metaOk with
                      | false =>
                          exact Or.inl (by
                            simp [record_complete_dataset, hmr, hp, hcsv, hres, hj, hmeta])
                      | true =>
                          right
                          have hrec : record_complete_dataset env s cfg name data ti ei
                              cns tv dvs hdrs params eqid fab sub subc ver com ts =
                            (FileWrite.csv (s.cwd ++ [name ++ ".csv"]) df ::
                              (doPlots env s name xy.1 xy.2).1 ++
                                [FileWrite.metadataFile (s.cwd ++ ["metadata.json"])
                                  (buildMetadata s ti ei fab sub subc eqid ver com xy.1
                                    yj ts df (s.cwd ++ [name ++ ".csv"])
                                    (doPlots env s name xy.1 xy.2).2 params)],
                             some (Bundle.mk (s.cwd ++ [name ++ ".csv"]) df
                               (doPlots env s name xy.1 xy.2).2
                               (s.cwd ++ ["metadata.json"])
                               (buildMetadata s ti ei fab sub subc eqid ver com xy.1 yj
                                 ts df (s.cwd ++ [name ++ ".csv"])
                                 (doPlots env s name xy.1 xy.2).2 params))) := by
                            simp [record_complete_dataset, hmr, hp, hcsv, hres, hj, hmeta]
                          refine ⟨_, by rw [hrec], rfl, rfl, ?_, ?_, ?_⟩
                          · rw [hrec]
                            exact List.mem_cons_self _ _
                          · rw [hrec]
                            simp
                          · intro d hd
                            rw [hrec]
                            exact List.mem_cons_of_mem _
                              (List.mem_append_left _
                                (doPlots_mem env s name xy.1 xy.2 d hd))

end RecorderModel
